import Mathlib

/-
Shallow embedding of the TradeLab-V2 backend persistence layer: the user
repository (createUser, createUserWithSettings), the trade repository
(createTrade, closeTrade, updateTradeDetails, deleteTrade,
findTradesBySubAccountId) and the two users-table schemas
(src/db/database.js and src/db/database_test_env.js).  SQL tables are
lists of row structures, SQL NULL is Option.none, and the node-sqlite3
callback protocol of createUserWithSettings is modelled step by step,
including the fact that db.serialize queues the user INSERT before the
BEGIN callback can reject, so a failed BEGIN does not stop the inserts.
-/

namespace TradeLab

/-- Three-valued JavaScript optional input: a field can be absent or explicitly
undefined (both behave alike after parameter destructuring with defaults),
explicitly null, or an actual value. -/
inductive Jsv (α : Type) where
  | undef : Jsv α
  | null : Jsv α
  | val : α → Jsv α
deriving DecidableEq, Repr

/-- Binding a JS value as a SQL statement parameter: node-sqlite3 binds both
undefined and null as SQL NULL. -/
def Jsv.toSql {α : Type} : Jsv α → Option α
  | .undef => none
  | .null => none
  | .val a => some a

/-- SQL COALESCE over two operands: the first non-NULL one. -/
def coalesce {α : Type} : Option α → Option α → Option α
  | some a, _ => some a
  | none, b => b

/-- JS "x || d" applied to a string-valued field read off an options object:
the default d replaces every falsy value, that is an absent field, an
explicit undefined, an explicit null, or the empty string. -/
def jsOrStr : Jsv String → String → String
  | .val s, d => if s = "" then d else s
  | .undef, d => d
  | .null, d => d

/-- Trade status column, CHECK(status IN ('open','closed')) in the schema. -/
inductive TradeStatus where
  | opened : TradeStatus
  | closed : TradeStatus
deriving DecidableEq, Repr

/-- One row of the trades table (schema in src/db/database_test_env.js):
nullable columns are Options, ids are naturals, prices are integers. -/
structure Trade where
  id : Nat
  user_id : Nat
  sub_account_id : Option Nat
  ticker : String
  quantity : Int
  entry_price : Int
  exit_price : Option Int
  direction : String
  status : TradeStatus
  entry_date : String
  exit_date : Option String
  notes : Option String
  commission : Option Int
  created_at : String
  updated_at : String
deriving DecidableEq, Repr

/-- Argument object of closeTrade (src/user_repository.js, closeTrade):
id, exitPrice and exitDate are required, notes and commission may be
absent, undefined, null or a value. -/
structure CloseData where
  id : Nat
  exitPrice : Int
  exitDate : String
  notes : Jsv String
  commission : Jsv Int
deriving DecidableEq, Repr

/-- Effect of the closeTrade UPDATE on a single row: the SET clause applies
only to rows matched by WHERE id = ? and status = 'open'; notes and
commission go through COALESCE(?, notes) and COALESCE(?, commission), so a
NULL-bound parameter keeps the stored value. -/
def closeTradeRow (c : CloseData) (now : String) (t : Trade) : Trade :=
  if t.id = c.id ∧ t.status = TradeStatus.opened then
    { t with
      exit_price := some c.exitPrice
      exit_date := some c.exitDate
      status := TradeStatus.closed
      updated_at := now
      notes := coalesce c.notes.toSql t.notes
      commission := coalesce c.commission.toSql t.commission }
  else t

/-- closeTrade (src/user_repository.js): runs the conditional UPDATE and
resolves this.changes > 0, the number of rows matched by the WHERE clause. -/
def closeTrade (c : CloseData) (now : String) (trades : List Trade) :
    List Trade × Bool :=
  (trades.map (closeTradeRow c now),
   0 < trades.countP (fun t => decide (t.id = c.id ∧ t.status = TradeStatus.opened)))

/-- Argument object of updateTradeDetails after destructuring
\x7bnotes=undefined, commission=undefined\x7d: an absent field and an explicit
undefined coincide, an explicit null stays null. -/
structure TradeUpdates where
  notes : Jsv String
  commission : Jsv Int
deriving DecidableEq, Repr

/-- Effect of the updateTradeDetails UPDATE on a single row with matching id:
updated_at is always set; notes is included in the SET list only when it is
not undefined (an explicit null is included and stores NULL); likewise
commission. -/
def updateTradeRow (id : Nat) (u : TradeUpdates) (now : String) (t : Trade) :
    Trade :=
  if t.id = id then
    { t with
      updated_at := now
      notes := match u.notes with
        | .undef => t.notes
        | .null => none
        | .val s => some s
      commission := match u.commission with
        | .undef => t.commission
        | .null => none
        | .val x => some x }
  else t

/-- updateTradeDetails (src/user_repository.js): short-circuits to false when
both notes and commission are undefined, otherwise runs UPDATE trades SET
... WHERE id = ? and resolves this.changes > 0. -/
def updateTradeDetails (id : Nat) (u : TradeUpdates) (now : String)
    (trades : List Trade) : List Trade × Bool :=
  if u.notes = Jsv.undef ∧ u.commission = Jsv.undef then
    (trades, false)
  else
    (trades.map (updateTradeRow id u now),
     0 < trades.countP (fun t => decide (t.id = id)))

/-- Input object of createTrade; status models tradeData.status || "open"
with none standing for an absent/falsy status. -/
structure TradeData where
  userId : Nat
  subAccountId : Option Nat
  ticker : String
  quantity : Int
  entryPrice : Int
  direction : String
  entryDate : String
  exitDate : Option String
  exitPrice : Option Int
  notes : Option String
  commission : Option Int
  status : Option TradeStatus
deriving DecidableEq, Repr

/-- The trades table together with the AUTOINCREMENT counter: sqlite
AUTOINCREMENT never hands out an id twice, even after a DELETE. -/
structure TradeDB where
  trades : List Trade
  nextTradeId : Nat
deriving Repr

/-- createTrade (src/user_repository.js): one INSERT, status defaulted to
'open' via tradeData.status || "open", created_at = updated_at = now,
resolving this.lastID. -/
def createTrade (td : TradeData) (now : String) (db : TradeDB) :
    TradeDB × Nat :=
  let t : Trade :=
    { id := db.nextTradeId
      user_id := td.userId
      sub_account_id := td.subAccountId
      ticker := td.ticker
      quantity := td.quantity
      entry_price := td.entryPrice
      exit_price := td.exitPrice
      direction := td.direction
      status := td.status.getD TradeStatus.opened
      entry_date := td.entryDate
      exit_date := td.exitDate
      notes := td.notes
      commission := td.commission
      created_at := now
      updated_at := now }
  ({ trades := db.trades ++ [t], nextTradeId := db.nextTradeId + 1 },
   db.nextTradeId)

/-- deleteTrade (src/user_repository.js): DELETE FROM trades WHERE id = ?,
resolving this.changes > 0. -/
def deleteTrade (id : Nat) (db : TradeDB) : TradeDB × Bool :=
  ({ db with trades := db.trades.filter (fun t => decide (¬ t.id = id)) },
   0 < db.trades.countP (fun t => decide (t.id = id)))

/-- One mutating trade-repository call, for reasoning about arbitrary
sequences of repository operations. -/
inductive TradeOp where
  | create (td : TradeData) (now : String) : TradeOp
  | close (c : CloseData) (now : String) : TradeOp
  | update (id : Nat) (u : TradeUpdates) (now : String) : TradeOp
  | delete (id : Nat) : TradeOp

/-- Running one repository operation against the trades table. -/
def applyOp (op : TradeOp) (db : TradeDB) : TradeDB :=
  match op with
  | .create td now => (createTrade td now db).1
  | .close c now => { db with trades := (closeTrade c now db.trades).1 }
  | .update id u now => { db with trades := (updateTradeDetails id u now db.trades).1 }
  | .delete id => (deleteTrade id db).1

/-- Running a sequence of repository operations in order. -/
def applyOps (ops : List TradeOp) (db : TradeDB) : TradeDB :=
  ops.foldl (fun s op => applyOp op s) db

/-- One row of the users table. -/
structure UserRow where
  id : Nat
  username : String
  email : String
  password_hash : String
  created_at : String
  updated_at : String
deriving DecidableEq, Repr

/-- One row of the user_settings table (user_id is its primary key). -/
structure SettingsRow where
  user_id : Nat
  default_currency : String
  theme : String
  created_at : String
  updated_at : String
deriving DecidableEq, Repr

/-- Which uniqueness constraints the users-table DDL declares on username and
on email. -/
structure UsersSchema where
  usernameUnique : Bool
  emailUnique : Bool
deriving DecidableEq, Repr

/-- Users DDL of src/db/database.js (initDB): username TEXT NOT NULL and
email TEXT NOT NULL, with plain non-unique indexes and no UNIQUE
constraint on either column. -/
def productionUsersSchema : UsersSchema :=
  { usernameUnique := false, emailUnique := false }

/-- Users DDL of src/db/database_test_env.js (initDB): username TEXT UNIQUE
NOT NULL and email TEXT UNIQUE NOT NULL. -/
def testEnvUsersSchema : UsersSchema :=
  { usernameUnique := true, emailUnique := true }

/-- Sqlite error raised by an INSERT into users: UNIQUE constraint failed on
users.username or on users.email. -/
inductive InsertErr where
  | duplicateUsername : InsertErr
  | duplicateEmail : InsertErr
deriving DecidableEq, Repr

/-- Store-level semantics of INSERT INTO users under a given schema: the
insert fails iff a declared UNIQUE constraint is violated by an existing
row, otherwise the row is appended. -/
def insertUserRow (sch : UsersSchema) (row : UserRow) (users : List UserRow) :
    Except InsertErr (List UserRow) :=
  if sch.usernameUnique && users.any (fun u => decide (u.username = row.username)) then
    .error .duplicateUsername
  else if sch.emailUnique && users.any (fun u => decide (u.email = row.email)) then
    .error .duplicateEmail
  else
    .ok (users ++ [row])

/-- The users and user_settings tables together with the users AUTOINCREMENT
counter. -/
structure UserDB where
  users : List UserRow
  settings : List SettingsRow
  nextUserId : Nat
deriving Repr

/-- createUser (src/user_repository.js): one INSERT INTO users with
created_at = updated_at = now, resolving this.lastID on success and
rejecting the sqlite error on failure. -/
def createUser (sch : UsersSchema) (username email passwordHash now : String)
    (db : UserDB) : UserDB × Except InsertErr Nat :=
  let row : UserRow :=
    { id := db.nextUserId
      username := username
      email := email
      password_hash := passwordHash
      created_at := now
      updated_at := now }
  match insertUserRow sch row db.users with
  | .error e => (db, .error e)
  | .ok users' =>
    ({ db with users := users', nextUserId := db.nextUserId + 1 }, .ok row.id)

/-- defaultSettings argument of createUserWithSettings: each field may be
absent, undefined, null or a string. -/
structure SettingsDefaults where
  default_currency : Jsv String
  theme : Jsv String
deriving DecidableEq, Repr

/-- Which steps of the createUserWithSettings protocol fail at the store. -/
structure TxOracle where
  beginFails : Bool
  userInsertFails : Bool
  settingsInsertFails : Bool
  commitFails : Bool
deriving DecidableEq, Repr

/-- Error surfaced by a failing createUserWithSettings step. -/
inductive TxErr where
  | beginErr : TxErr
  | userInsertErr : TxErr
  | settingsInsertErr : TxErr
  | commitErr : TxErr
deriving DecidableEq, Repr

/-- createUserWithSettings (src/user_repository.js), traced statement by
statement.  db.serialize queues BEGIN and then the user INSERT
synchronously, so when BEGIN fails its callback rejects the promise but
the user INSERT (and the rest of the nested chain) still executes,
now without an active transaction; the later ROLLBACK and COMMIT then
fail as no-ops and the inserted rows stay.  A promise keeps its first
settlement, so the caller sees the begin error in that scenario.  When
BEGIN succeeded, a failing user INSERT, settings INSERT or COMMIT issues
ROLLBACK, which restores the pre-call state, and rejects that step's
error; when every step succeeds COMMIT keeps both rows and the promise
resolves this.lastID of the user INSERT.  Settings defaults are applied
with JS ||: default_currency falls back to USD and theme to light. -/
def createUserWithSettings (o : TxOracle) (username email passwordHash : String)
    (ds : SettingsDefaults) (now : String) (db : UserDB) :
    UserDB × Except TxErr Nat :=
  let txActive := !o.beginFails
  let settle : Except TxErr Nat → Except TxErr Nat := fun r =>
    if o.beginFails then .error .beginErr else r
  if o.userInsertFails then
    (db, settle (.error .userInsertErr))
  else
    let userId := db.nextUserId
    let userRow : UserRow :=
      { id := userId
        username := username
        email := email
        password_hash := passwordHash
        created_at := now
        updated_at := now }
    let db1 : UserDB :=
      { db with users := db.users ++ [userRow], nextUserId := userId + 1 }
    if o.settingsInsertFails then
      (if txActive then db else db1, settle (.error .settingsInsertErr))
    else
      let srow : SettingsRow :=
        { user_id := userId
          default_currency := jsOrStr ds.default_currency "USD"
          theme := jsOrStr ds.theme "light"
          created_at := now
          updated_at := now }
      let db2 : UserDB := { db1 with settings := db1.settings ++ [srow] }
      if txActive then
        if o.commitFails then (db, .error .commitErr)
        else (db2, .ok userId)
      else
        (db2, .error .beginErr)

/-- Modelled from the spec: findUserByUsername is listed by the spec among
the User repository lookups and is imported and called by
src/__tests__/user_repository.test.js, but its body is absent from
src/user_repository.js.  Per the spec it is an exact-match lookup
returning the user, or null (not an error) when no user with that
username exists; db.get returns the first matching row. -/
def findUserByUsername (username : String) (users : List UserRow) :
    Option UserRow :=
  users.find? (fun u => decide (u.username = username))

/-- One row of the sub_accounts table. -/
structure SubAccount where
  id : Nat
  user_id : Nat
  name : String
  description : Option String
  created_at : String
  updated_at : String
deriving DecidableEq, Repr

/-- The tables findTradesBySubAccountId reads. -/
structure JournalDB where
  subAccounts : List SubAccount
  trades : List Trade
deriving Repr

/-- Strict part of the sqlite ordering on a nullable TEXT column under the
default BINARY collation: NULL sorts below every string, strings compare
lexicographically. -/
def optStrLT : Option String → Option String → Bool
  | none, none => false
  | none, some _ => true
  | some _, none => false
  | some x, some y => decide (x < y)

/-- ORDER BY exit_date DESC, entry_date DESC as a comes-no-later-than
relation on trade rows: larger exit_date first (NULLs last), ties broken
by larger entry_date first. -/
def tradeBefore (a b : Trade) : Bool :=
  if a.exit_date = b.exit_date then decide (b.entry_date ≤ a.entry_date)
  else optStrLT b.exit_date a.exit_date

/-- findTradesBySubAccountId (src/user_repository.js): db.get resolves the
sub-account row first and the function resolves [] when there is none;
otherwise SELECT * FROM trades WHERE sub_account_id = ? AND user_id = ?
ORDER BY exit_date DESC, entry_date DESC LIMIT ? OFFSET ?. -/
def findTradesBySubAccountId (subAccountId limit offset : Nat)
    (db : JournalDB) : List Trade :=
  match db.subAccounts.find? (fun sa => decide (sa.id = subAccountId)) with
  | none => []
  | some sa =>
    ((((db.trades.filter (fun t =>
        decide (t.sub_account_id = some subAccountId ∧ t.user_id = sa.user_id))).mergeSort
          tradeBefore).drop offset).take limit)

/-- Empty database for concrete runs: AUTOINCREMENT starts at 1. -/
def emptyUserDB : UserDB :=
  { users := [], settings := [], nextUserId := 1 }

/-- Concrete user row for concrete lookups. -/
def uAlice : UserRow :=
  { id := 1, username := "alice", email := "alice@example.com",
    password_hash := "h", created_at := "t0", updated_at := "t0" }

/-- Concrete open trade for concrete runs. -/
def tOpen : Trade :=
  { id := 1, user_id := 7, sub_account_id := some 3, ticker := "AAPL",
    quantity := 10, entry_price := 100, exit_price := none,
    direction := "long", status := TradeStatus.opened,
    entry_date := "2024-01-01", exit_date := none, notes := some "n0",
    commission := some 2, created_at := "c0", updated_at := "c0" }

/-- Concrete closed trade for concrete runs. -/
def tClosed : Trade :=
  { id := 2, user_id := 7, sub_account_id := some 3, ticker := "MSFT",
    quantity := 5, entry_price := 50, exit_price := some 60,
    direction := "long", status := TradeStatus.closed,
    entry_date := "2024-02-01", exit_date := some "2024-03-01",
    notes := none, commission := none, created_at := "c0", updated_at := "c1" }

/-- Concrete close request for trade 1. -/
def cSample : CloseData :=
  { id := 1, exitPrice := 120, exitDate := "2024-04-01",
    notes := Jsv.undef, commission := Jsv.undef }

/-- Concrete sub-account owned by user 7. -/
def saSample : SubAccount :=
  { id := 3, user_id := 7, name := "IBKR Algo", description := none,
    created_at := "c0", updated_at := "c0" }

/-- Concrete journal with one sub-account and two of its trades. -/
def journalSample : JournalDB :=
  { subAccounts := [saSample], trades := [tOpen, tClosed] }

/-- A trade id every stored row of which is closed and which the
AUTOINCREMENT counter has already passed, so no later create can hand it
out again. -/
def closedStable (id : Nat) (db : TradeDB) : Prop :=
  (∀ t ∈ db.trades, t.id = id → t.status = TradeStatus.closed)
    ∧ id < db.nextTradeId

/-- C7: findUserByUsername is an exact-match lookup: it returns null exactly
when no stored user has the requested username, and any record it returns
is a stored user whose username equals the argument. -/
theorem findUserByUsername_spec (username : String) (users : List UserRow) :
    (findUserByUsername username users = none ↔
      ∀ u ∈ users, u.username ≠ username)
    ∧ (∀ u, findUserByUsername username users = some u →
        u ∈ users ∧ u.username = username) := by
  constructor
  · simp [findUserByUsername, List.find?_eq_none]
  · intro u h
    refine ⟨List.mem_of_find?_eq_some h, ?_⟩
    simpa using List.find?_some h

/-- Witness for C7 at a concrete store of one user. -/
theorem findUserByUsername_spec_witness :
    uAlice ∈ [uAlice] ∧ uAlice.username = "alice" :=
  (findUserByUsername_spec "alice" [uAlice]).2 uAlice (by decide)

/-- C5: running createUser twice with the same email under the two users-table
DDLs of the repository: under the production schema of src/db/database.js,
which declares no UNIQUE constraint, the second insert silently succeeds
and two stored rows share the email, while under the test-environment
schema of src/db/database_test_env.js the second insert fails with the
duplicate-email unique-constraint error and the first user row is
unchanged. -/
theorem createUser_duplicate_email_production_vs_testEnv :
    (createUser productionUsersSchema "anotheruser" "duplicate@example.com" "h2" "t1"
        (createUser productionUsersSchema "testuser3" "duplicate@example.com" "h1" "t0"
          emptyUserDB).1).2 = Except.ok 2
    ∧ ((createUser productionUsersSchema "anotheruser" "duplicate@example.com" "h2" "t1"
        (createUser productionUsersSchema "testuser3" "duplicate@example.com" "h1" "t0"
          emptyUserDB).1).1).users.countP
        (fun u => decide (u.email = "duplicate@example.com")) = 2
    ∧ (createUser testEnvUsersSchema "anotheruser" "duplicate@example.com" "h2" "t1"
        (createUser testEnvUsersSchema "testuser3" "duplicate@example.com" "h1" "t0"
          emptyUserDB).1).2 = Except.error InsertErr.duplicateEmail
    ∧ ((createUser testEnvUsersSchema "anotheruser" "duplicate@example.com" "h2" "t1"
        (createUser testEnvUsersSchema "testuser3" "duplicate@example.com" "h1" "t0"
          emptyUserDB).1).1).users
      = [{ id := 1, username := "testuser3", email := "duplicate@example.com",
           password_hash := "h1", created_at := "t0", updated_at := "t0" }] := by
  refine ⟨rfl, rfl, rfl, rfl⟩

/-- C1: a run of the createUserWithSettings protocol in which BEGIN fails and
both inserts succeed rejects with the begin error, yet afterwards the User
row and the Settings row both exist, because the inserts were queued in
db.serialize before the BEGIN callback could stop the chain; by contrast a
failing settings INSERT after a successful BEGIN is fully rolled back to
the initial state. -/
theorem createUserWithSettings_begin_failure_not_rolled_back :
    (createUserWithSettings
        { beginFails := true, userInsertFails := false,
          settingsInsertFails := false, commitFails := false }
        "newUser" "e@x.com" "h" { default_currency := Jsv.undef, theme := Jsv.undef }
        "t0" emptyUserDB).2 = Except.error TxErr.beginErr
    ∧ ((createUserWithSettings
        { beginFails := true, userInsertFails := false,
          settingsInsertFails := false, commitFails := false }
        "newUser" "e@x.com" "h" { default_currency := Jsv.undef, theme := Jsv.undef }
        "t0" emptyUserDB).1).users.length = 1
    ∧ ((createUserWithSettings
        { beginFails := true, userInsertFails := false,
          settingsInsertFails := false, commitFails := false }
        "newUser" "e@x.com" "h" { default_currency := Jsv.undef, theme := Jsv.undef }
        "t0" emptyUserDB).1).settings.length = 1
    ∧ (createUserWithSettings
        { beginFails := false, userInsertFails := false,
          settingsInsertFails := true, commitFails := false }
        "newUser" "e@x.com" "h" { default_currency := Jsv.undef, theme := Jsv.undef }
        "t0" emptyUserDB).1 = emptyUserDB := by
  refine ⟨rfl, rfl, rfl, rfl⟩

/-- C9 counterexample: the caller explicitly supplies the empty string as
default_currency, yet the Settings row is inserted with the default USD,
so a supplied value is not always used as given. -/
theorem createUserWithSettings_empty_string_default_counterexample :
    ((createUserWithSettings
        { beginFails := false, userInsertFails := false,
          settingsInsertFails := false, commitFails := false }
        "u" "e@x.com" "h" { default_currency := Jsv.val "", theme := Jsv.val "dark" }
        "t0" emptyUserDB).1).settings
      = [{ user_id := 1, default_currency := "USD", theme := "dark",
           created_at := "t0", updated_at := "t0" }]
    ∧ ("USD" : String) ≠ "" := by
  refine ⟨rfl, by decide⟩

/-- C9 amended: on a fully successful run the Settings row is inserted with
the generated user id, and the defaults USD and light are applied exactly
when the caller's field is falsy, that is absent, undefined, null or the
empty string; a supplied non-empty string is used as given. -/
theorem createUserWithSettings_defaults (o : TxOracle)
    (username email passwordHash : String) (ds : SettingsDefaults)
    (now : String) (db : UserDB)
    (hb : o.beginFails = false) (hu : o.userInsertFails = false)
    (hs : o.settingsInsertFails = false) (hc : o.commitFails = false) :
    (createUserWithSettings o username email passwordHash ds now db).2
      = Except.ok db.nextUserId
    ∧ ((createUserWithSettings o username email passwordHash ds now db).1).settings
      = db.settings ++
        [{ user_id := db.nextUserId,
           default_currency := jsOrStr ds.default_currency "USD",
           theme := jsOrStr ds.theme "light",
           created_at := now, updated_at := now }]
    ∧ (∀ s d, s ≠ "" → jsOrStr (Jsv.val s) d = s)
    ∧ (∀ d, jsOrStr Jsv.undef d = d ∧ jsOrStr Jsv.null d = d
        ∧ jsOrStr (Jsv.val "") d = d) := by
  obtain ⟨b, iu, si, co⟩ := o
  simp only at hb hu hs hc
  subst hb hu hs hc
  refine ⟨rfl, rfl, ?_, ?_⟩
  · intro s d hne
    simp [jsOrStr, hne]
  · intro d
    exact ⟨rfl, rfl, by simp [jsOrStr]⟩

/-- Witness for the amended C9 at a concrete successful run. -/
theorem createUserWithSettings_defaults_witness :
    (createUserWithSettings
        { beginFails := false, userInsertFails := false,
          settingsInsertFails := false, commitFails := false }
        "u" "e@x.com" "h" { default_currency := Jsv.val "EUR", theme := Jsv.undef }
        "t0" emptyUserDB).2 = Except.ok emptyUserDB.nextUserId
    ∧ ((createUserWithSettings
        { beginFails := false, userInsertFails := false,
          settingsInsertFails := false, commitFails := false }
        "u" "e@x.com" "h" { default_currency := Jsv.val "EUR", theme := Jsv.undef }
        "t0" emptyUserDB).1).settings
      = emptyUserDB.settings ++
        [{ user_id := emptyUserDB.nextUserId,
           default_currency := jsOrStr (Jsv.val "EUR") "USD",
           theme := jsOrStr Jsv.undef "light",
           created_at := "t0", updated_at := "t0" }]
    ∧ (∀ s d, s ≠ "" → jsOrStr (Jsv.val s) d = s)
    ∧ (∀ d, jsOrStr Jsv.undef d = d ∧ jsOrStr Jsv.null d = d
        ∧ jsOrStr (Jsv.val "") d = d) :=
  createUserWithSettings_defaults
    { beginFails := false, userInsertFails := false,
      settingsInsertFails := false, commitFails := false }
    "u" "e@x.com" "h" { default_currency := Jsv.val "EUR", theme := Jsv.undef }
    "t0" emptyUserDB rfl rfl rfl rfl

/-- Under unique trade ids a WHERE id = ? clause matches at most one row. -/
theorem countP_id_le_one (i : Nat) (trades : List Trade)
    (hnd : (trades.map (fun t => t.id)).Nodup) :
    trades.countP (fun t => decide (t.id = i)) ≤ 1 := by
  induction trades with
  | nil => simp
  | cons t ts ih =>
    simp only [List.map_cons, List.nodup_cons] at hnd
    rw [List.countP_cons]
    by_cases h : t.id = i
    · have hz : ts.countP (fun t => decide (t.id = i)) = 0 := by
        rw [List.countP_eq_zero]
        intro a ha
        simp only [decide_eq_true_eq]
        intro hai
        exact hnd.1 (by rw [h, ← hai]; exact List.mem_map_of_mem _ ha)
      simp [h, hz]
    · have hih := ih hnd.2
      simpa [h] using hih

/-- C2: closeTrade updates a row only when its current status is open,
setting exit_price, exit_date, status closed and updated_at to the
operation time; under unique trade ids it returns true iff exactly one row
was affected, and it returns false, as a value rather than an error, both
when no trade has the id and when every row with the id is already
closed. -/
theorem closeTrade_spec (c : CloseData) (now : String) (trades : List Trade)
    (hnd : (trades.map (fun t => t.id)).Nodup) :
    ((closeTrade c now trades).2 = true ↔
      trades.countP
        (fun t => decide (t.id = c.id ∧ t.status = TradeStatus.opened)) = 1)
    ∧ (∀ t ∈ trades, t.id = c.id → t.status = TradeStatus.opened →
        closeTradeRow c now t =
          { t with
            exit_price := some c.exitPrice
            exit_date := some c.exitDate
            status := TradeStatus.closed
            updated_at := now
            notes := coalesce c.notes.toSql t.notes
            commission := coalesce c.commission.toSql t.commission })
    ∧ (∀ t ∈ trades, ¬ (t.id = c.id ∧ t.status = TradeStatus.opened) →
        closeTradeRow c now t = t)
    ∧ ((∀ t ∈ trades, t.id ≠ c.id) → closeTrade c now trades = (trades, false))
    ∧ ((∀ t ∈ trades, t.id = c.id → t.status = TradeStatus.closed) →
        (closeTrade c now trades).2 = false) := by
  have hle : trades.countP
      (fun t => decide (t.id = c.id ∧ t.status = TradeStatus.opened)) ≤ 1 := by
    refine le_trans (List.countP_mono_left ?_) (countP_id_le_one c.id trades hnd)
    intro a _ h
    simp only [decide_eq_true_eq] at h ⊢
    exact h.1
  refine ⟨?_, ?_, ?_, ?_, ?_⟩
  · simp only [closeTrade, decide_eq_true_eq]
    omega
  · intro t _ hid hst
    simp [closeTradeRow, hid, hst]
  · intro t _ h
    simp [closeTradeRow, h]
  · intro h
    have hz : trades.countP
        (fun t => decide (t.id = c.id ∧ t.status = TradeStatus.opened)) = 0 := by
      rw [List.countP_eq_zero]
      intro a ha
      simp only [decide_eq_true_eq, not_and]
      intro hid
      exact absurd hid (h a ha)
    simp only [closeTrade, Prod.mk.injEq]
    constructor
    · conv_rhs => rw [← List.map_id trades]
      refine List.map_congr_left ?_
      intro a ha
      have : ¬ (a.id = c.id ∧ a.status = TradeStatus.opened) := by
        intro hc
        exact h a ha hc.1
      simp [closeTradeRow, this]
    · rw [hz]
      rfl
  · intro h
    have hz : trades.countP
        (fun t => decide (t.id = c.id ∧ t.status = TradeStatus.opened)) = 0 := by
      rw [List.countP_eq_zero]
      intro a ha
      simp only [decide_eq_true_eq, not_and]
      intro hid hst
      rw [h a ha hid] at hst
      exact absurd hst (by simp)
    simp only [closeTrade]
    rw [hz]
    rfl

/-- Witness for C2: closing an id that is not in the store returns false. -/
theorem closeTrade_spec_witness :
    (closeTrade
      { id := 3, exitPrice := 1, exitDate := "d",
        notes := Jsv.undef, commission := Jsv.undef }
      "t1" [tOpen, tClosed]).2 = false :=
  (closeTrade_spec
    { id := 3, exitPrice := 1, exitDate := "d",
      notes := Jsv.undef, commission := Jsv.undef }
    "t1" [tOpen, tClosed] (by decide)).2.2.2.2 (by decide)

/-- C3: in closeTrade, notes and commission are overwritten only when the
caller supplies an actual value, via COALESCE to the stored value; every
other column of a matched row apart from exit_price, exit_date, status and
updated_at keeps its value, and unmatched rows are untouched. -/
theorem closeTrade_frame (c : CloseData) (now : String) (trades : List Trade) :
    (closeTrade c now trades).1 = trades.map (closeTradeRow c now)
    ∧ (∀ t, ¬ (t.id = c.id ∧ t.status = TradeStatus.opened) →
        closeTradeRow c now t = t)
    ∧ (∀ t, (closeTradeRow c now t).id = t.id
        ∧ (closeTradeRow c now t).user_id = t.user_id
        ∧ (closeTradeRow c now t).sub_account_id = t.sub_account_id
        ∧ (closeTradeRow c now t).ticker = t.ticker
        ∧ (closeTradeRow c now t).quantity = t.quantity
        ∧ (closeTradeRow c now t).entry_price = t.entry_price
        ∧ (closeTradeRow c now t).direction = t.direction
        ∧ (closeTradeRow c now t).entry_date = t.entry_date
        ∧ (closeTradeRow c now t).created_at = t.created_at)
    ∧ (c.notes.toSql = none →
        ∀ t, (closeTradeRow c now t).notes = t.notes)
    ∧ (∀ s, c.notes = Jsv.val s →
        ∀ t, t.id = c.id → t.status = TradeStatus.opened →
          (closeTradeRow c now t).notes = some s)
    ∧ (c.commission.toSql = none →
        ∀ t, (closeTradeRow c now t).commission = t.commission)
    ∧ (∀ x, c.commission = Jsv.val x →
        ∀ t, t.id = c.id → t.status = TradeStatus.opened →
          (closeTradeRow c now t).commission = some x) := by
  refine ⟨rfl, ?_, ?_, ?_, ?_, ?_, ?_⟩
  · intro t h
    simp [closeTradeRow, h]
  · intro t
    by_cases h : t.id = c.id ∧ t.status = TradeStatus.opened <;>
      simp [closeTradeRow, h]
  · intro hn t
    by_cases h : t.id = c.id ∧ t.status = TradeStatus.opened <;>
      simp [closeTradeRow, h, hn, coalesce]
  · intro s hs t hid hst
    simp [closeTradeRow, hid, hst, hs, Jsv.toSql, coalesce]
  · intro hn t
    by_cases h : t.id = c.id ∧ t.status = TradeStatus.opened <;>
      simp [closeTradeRow, h, hn, coalesce]
  · intro x hx t hid hst
    simp [closeTradeRow, hid, hst, hx, Jsv.toSql, coalesce]

/-- Witness for C3: an already-closed row is untouched by closeTrade. -/
theorem closeTrade_frame_witness :
    closeTradeRow cSample "t1" tClosed = tClosed :=
  (closeTrade_frame cSample "t1" [tClosed]).2.1 tClosed (by decide)

/-- C6: updateTradeDetails builds the update from the supplied fields only:
with both fields undefined it returns false and leaves the store
untouched; with at least one field supplied it refreshes updated_at on the
matched row, keeps each undefined field's stored value, and returns true
iff a trade with the id exists; rows with other ids are untouched. -/
theorem updateTradeDetails_spec (id : Nat) (u : TradeUpdates) (now : String)
    (trades : List Trade) :
    (u.notes = Jsv.undef ∧ u.commission = Jsv.undef →
        updateTradeDetails id u now trades = (trades, false))
    ∧ (¬ (u.notes = Jsv.undef ∧ u.commission = Jsv.undef) →
        ((updateTradeDetails id u now trades).2 = true ↔
          ∃ t ∈ trades, t.id = id)
        ∧ (updateTradeDetails id u now trades).1
          = trades.map (updateTradeRow id u now))
    ∧ (∀ t, t.id = id →
        (updateTradeRow id u now t).updated_at = now
        ∧ (u.notes = Jsv.undef → (updateTradeRow id u now t).notes = t.notes)
        ∧ (u.commission = Jsv.undef →
            (updateTradeRow id u now t).commission = t.commission))
    ∧ (∀ t, t.id ≠ id → updateTradeRow id u now t = t) := by
  refine ⟨?_, ?_, ?_, ?_⟩
  · intro h
    simp [updateTradeDetails, h]
  · intro h
    constructor
    · simp [updateTradeDetails, h, List.countP_pos_iff]
    · simp [updateTradeDetails, h]
  · intro t hid
    refine ⟨by simp [updateTradeRow, hid], ?_, ?_⟩
    · intro hn
      simp [updateTradeRow, hid, hn]
    · intro hc
      simp [updateTradeRow, hid, hc]
  · intro t h
    simp [updateTradeRow, h]

/-- Witness for C6: an empty update object is a no-op returning false. -/
theorem updateTradeDetails_spec_witness :
    updateTradeDetails 1 { notes := Jsv.undef, commission := Jsv.undef } "t9"
      [tOpen] = ([tOpen], false) :=
  (updateTradeDetails_spec 1
    { notes := Jsv.undef, commission := Jsv.undef } "t9" [tOpen]).1 ⟨rfl, rfl⟩

/-- C10: an explicit null behaves differently in the two update operations:
closeTrade with null notes or commission keeps the stored value and can
never clear a stored value to NULL, while updateTradeDetails with an
explicit null stores NULL, and only an undefined field is skipped there. -/
theorem explicit_null_closeTrade_vs_updateTradeDetails (now : String) (t : Trade) :
    (∀ c : CloseData, c.notes = Jsv.null →
        (closeTradeRow c now t).notes = t.notes)
    ∧ (∀ c : CloseData, c.commission = Jsv.null →
        (closeTradeRow c now t).commission = t.commission)
    ∧ (∀ c : CloseData, (closeTradeRow c now t).notes = none → t.notes = none)
    ∧ (∀ c : CloseData,
        (closeTradeRow c now t).commission = none → t.commission = none)
    ∧ (∀ (u : TradeUpdates) (id : Nat), t.id = id → u.notes = Jsv.null →
        (updateTradeRow id u now t).notes = none)
    ∧ (∀ (u : TradeUpdates) (id : Nat), t.id = id → u.commission = Jsv.null →
        (updateTradeRow id u now t).commission = none)
    ∧ (∀ (u : TradeUpdates) (id : Nat), u.notes = Jsv.undef →
        (updateTradeRow id u now t).notes = t.notes)
    ∧ (∀ (u : TradeUpdates) (id : Nat), u.commission = Jsv.undef →
        (updateTradeRow id u now t).commission = t.commission) := by
  refine ⟨?_, ?_, ?_, ?_, ?_, ?_, ?_, ?_⟩
  · intro c hc
    by_cases h : t.id = c.id ∧ t.status = TradeStatus.opened <;>
      simp [closeTradeRow, h, hc, Jsv.toSql, coalesce]
  · intro c hc
    by_cases h : t.id = c.id ∧ t.status = TradeStatus.opened <;>
      simp [closeTradeRow, h, hc, Jsv.toSql, coalesce]
  · intro c hn
    by_cases h : t.id = c.id ∧ t.status = TradeStatus.opened
    · simp only [closeTradeRow, if_pos h] at hn
      cases hx : c.notes.toSql <;> simp [coalesce, hx] at hn ⊢
      exact hn
    · simpa [closeTradeRow, h] using hn
  · intro c hn
    by_cases h : t.id = c.id ∧ t.status = TradeStatus.opened
    · simp only [closeTradeRow, if_pos h] at hn
      cases hx : c.commission.toSql <;> simp [coalesce, hx] at hn ⊢
      exact hn
    · simpa [closeTradeRow, h] using hn
  · intro u id hid hn
    simp [updateTradeRow, hid, hn]
  · intro u id hid hc
    simp [updateTradeRow, hid, hc]
  · intro u id hn
    by_cases h : t.id = id <;> simp [updateTradeRow, h, hn]
  · intro u id hc
    by_cases h : t.id = id <;> simp [updateTradeRow, h, hc]

/-- Witness for C10: null notes in a close keeps the stored notes, null notes
in a detail update clears them, on the same open trade. -/
theorem explicit_null_witness :
    (closeTradeRow
      { id := 1, exitPrice := 120, exitDate := "2024-04-01",
        notes := Jsv.null, commission := Jsv.undef } "t1" tOpen).notes
      = tOpen.notes
    ∧ (updateTradeRow 1
        { notes := Jsv.null, commission := Jsv.undef } "t1" tOpen).notes
      = none :=
  ⟨(explicit_null_closeTrade_vs_updateTradeDetails "t1" tOpen).1
      { id := 1, exitPrice := 120, exitDate := "2024-04-01",
        notes := Jsv.null, commission := Jsv.undef } rfl,
   (explicit_null_closeTrade_vs_updateTradeDetails "t1" tOpen).2.2.2.2.1
      { notes := Jsv.null, commission := Jsv.undef } 1 rfl rfl⟩

/-- A row that is already closed is left untouched by the closeTrade UPDATE. -/
theorem closeTradeRow_of_closed (c : CloseData) (now : String) (t : Trade)
    (h : t.status = TradeStatus.closed) : closeTradeRow c now t = t := by
  have hcond : ¬ (t.id = c.id ∧ t.status = TradeStatus.opened) := by
    rintro ⟨_, hst⟩
    rw [h] at hst
    exact absurd hst (by simp)
  simp [closeTradeRow, hcond]

/-- When every stored row with the requested id is already closed, closeTrade
is a complete no-op returning false. -/
theorem closeTrade_noop_of_all_closed (c : CloseData) (now : String)
    (trades : List Trade)
    (h : ∀ t ∈ trades, t.id = c.id → t.status = TradeStatus.closed) :
    closeTrade c now trades = (trades, false) := by
  have hz : trades.countP
      (fun t => decide (t.id = c.id ∧ t.status = TradeStatus.opened)) = 0 := by
    rw [List.countP_eq_zero]
    intro a ha
    simp only [decide_eq_true_eq, not_and]
    intro hid hst
    rw [h a ha hid] at hst
    exact absurd hst (by simp)
  simp only [closeTrade, Prod.mk.injEq]
  constructor
  · conv_rhs => rw [← List.map_id trades]
    refine List.map_congr_left ?_
    intro a ha
    by_cases hid : a.id = c.id
    · simpa using closeTradeRow_of_closed c now a (h a ha hid)
    · have hcond : ¬ (a.id = c.id ∧ a.status = TradeStatus.opened) :=
        fun hc => hid hc.1
      simp [closeTradeRow, hcond]
  · rw [hz]
    rfl

/-- The detail update never touches the status column. -/
theorem updateTradeRow_status (id : Nat) (u : TradeUpdates) (now : String)
    (t : Trade) : (updateTradeRow id u now t).status = t.status := by
  by_cases h : t.id = id <;> simp [updateTradeRow, h]

/-- The detail update never touches the id column. -/
theorem updateTradeRow_id (id : Nat) (u : TradeUpdates) (now : String)
    (t : Trade) : (updateTradeRow id u now t).id = t.id := by
  by_cases h : t.id = id <;> simp [updateTradeRow, h]

/-- Every single repository operation preserves the closed-and-id-spent
invariant of a trade id. -/
theorem applyOp_closedStable (op : TradeOp) (db : TradeDB) (id : Nat)
    (h : closedStable id db) : closedStable id (applyOp op db) := by
  obtain ⟨hcl, hlt⟩ := h
  cases op with
  | create td now =>
    refine ⟨?_, ?_⟩
    · intro t ht hid
      simp only [applyOp, createTrade, List.mem_append, List.mem_singleton] at ht
      rcases ht with ht | ht
      · exact hcl t ht hid
      · rw [ht] at hid
        simp only at hid
        omega
    · simp only [applyOp, createTrade]
      omega
  | close c now =>
    refine ⟨?_, hlt⟩
    intro t ht hid
    simp only [applyOp, closeTrade, List.mem_map] at ht
    obtain ⟨a, ha, rfl⟩ := ht
    by_cases hm : a.id = c.id ∧ a.status = TradeStatus.opened
    · have haid : a.id = id := by
        simpa [closeTradeRow, hm] using hid
      have := hcl a ha haid
      rw [this] at hm
      exact absurd hm.2 (by simp)
    · rw [closeTradeRow, if_neg hm] at hid ⊢
      exact hcl a ha hid
  | update uid u now =>
    refine ⟨?_, hlt⟩
    intro t ht hid
    simp only [applyOp, updateTradeDetails] at ht
    by_cases hu : u.notes = Jsv.undef ∧ u.commission = Jsv.undef
    · rw [if_pos hu] at ht
      exact hcl t ht hid
    · rw [if_neg hu] at ht
      simp only [List.mem_map] at ht
      obtain ⟨a, ha, rfl⟩ := ht
      rw [updateTradeRow_id] at hid
      rw [updateTradeRow_status]
      exact hcl a ha hid
  | delete did =>
    refine ⟨?_, hlt⟩
    intro t ht hid
    simp only [applyOp, deleteTrade] at ht
    exact hcl t (List.mem_of_mem_filter ht) hid

/-- C4: the status state machine has the single transition open to closed:
once every stored row of an id is closed and the id counter has passed it,
any sequence of repository operations keeps it that way; a closeTrade on
an already-closed trade is a no-op returning false; updateTradeDetails
never modifies any status; and a closed row is untouched by the close
UPDATE, so closed is terminal. -/
theorem trade_status_closed_terminal :
    (∀ (ops : List TradeOp) (db : TradeDB) (id : Nat),
        closedStable id db → closedStable id (applyOps ops db))
    ∧ (∀ (c : CloseData) (now : String) (trades : List Trade),
        (∀ t ∈ trades, t.id = c.id → t.status = TradeStatus.closed) →
        closeTrade c now trades = (trades, false))
    ∧ (∀ (id : Nat) (u : TradeUpdates) (now : String) (trades : List Trade),
        ((updateTradeDetails id u now trades).1).map (fun t => t.status)
          = trades.map (fun t => t.status))
    ∧ (∀ (c : CloseData) (now : String) (t : Trade),
        t.status = TradeStatus.closed → closeTradeRow c now t = t) := by
  refine ⟨?_, closeTrade_noop_of_all_closed, ?_, closeTradeRow_of_closed⟩
  · intro ops
    induction ops with
    | nil => intro db id h; exact h
    | cons op rest ih =>
      intro db id h
      exact ih (applyOp op db) id (applyOp_closedStable op db id h)
  · intro id u now trades
    by_cases hu : u.notes = Jsv.undef ∧ u.commission = Jsv.undef
    · simp [updateTradeDetails, hu]
    · simp only [updateTradeDetails, if_neg hu, List.map_map]
      refine List.map_congr_left ?_
      intro a _
      exact updateTradeRow_status id u now a

/-- Witness for C4 on a concrete operation sequence over a store holding an
open and a closed trade. -/
theorem trade_status_closed_terminal_witness :
    closedStable 2 (applyOps
      [TradeOp.close cSample "t5",
       TradeOp.update 2 { notes := Jsv.val "x", commission := Jsv.undef } "t6",
       TradeOp.delete 1]
      { trades := [tOpen, tClosed], nextTradeId := 3 }) :=
  trade_status_closed_terminal.1
    [TradeOp.close cSample "t5",
     TradeOp.update 2 { notes := Jsv.val "x", commission := Jsv.undef } "t6",
     TradeOp.delete 1]
    { trades := [tOpen, tClosed], nextTradeId := 3 } 2
    (by unfold closedStable; decide)

/-- The strict NULL-first string order is transitive. -/
theorem optStrLT_trans : ∀ a b c : Option String,
    optStrLT a b = true → optStrLT b c = true → optStrLT a c = true
  | none, none, _ => by simp [optStrLT]
  | none, some _, none => by simp [optStrLT]
  | none, some _, some _ => by simp [optStrLT]
  | some _, none, _ => by simp [optStrLT]
  | some _, some _, none => by simp [optStrLT]
  | some x, some y, some z => by
    simp only [optStrLT, decide_eq_true_eq]
    exact fun h1 h2 => lt_trans h1 h2

/-- The strict NULL-first string order is irreflexive. -/
theorem optStrLT_irrefl (a : Option String) : optStrLT a a = false := by
  cases a <;> simp [optStrLT]

/-- Two distinct nullable strings are strictly comparable. -/
theorem optStrLT_total_of_ne (a b : Option String) (h : a ≠ b) :
    (optStrLT a b || optStrLT b a) = true := by
  match a, b with
  | none, none => exact absurd rfl h
  | none, some _ => simp [optStrLT]
  | some _, none => simp [optStrLT]
  | some x, some y =>
    have hxy : x ≠ y := fun he => h (by rw [he])
    rcases lt_or_gt_of_ne hxy with hlt | hgt
    · simp [optStrLT, hlt]
    · simp [optStrLT, hgt]

/-- The ORDER BY exit_date DESC, entry_date DESC relation is transitive. -/
theorem tradeBefore_trans (a b c : Trade)
    (hab : tradeBefore a b = true) (hbc : tradeBefore b c = true) :
    tradeBefore a c = true := by
  unfold tradeBefore at hab hbc ⊢
  by_cases h1 : a.exit_date = b.exit_date <;>
    by_cases h2 : b.exit_date = c.exit_date
  · have h3 : a.exit_date = c.exit_date := h1.trans h2
    rw [if_pos h1, decide_eq_true_eq] at hab
    rw [if_pos h2, decide_eq_true_eq] at hbc
    rw [if_pos h3, decide_eq_true_eq]
    exact le_trans hbc hab
  · have h3 : ¬ a.exit_date = c.exit_date := by rw [h1]; exact h2
    rw [if_neg h2] at hbc
    rw [if_neg h3, h1]
    exact hbc
  · have h3 : ¬ a.exit_date = c.exit_date := by rw [← h2]; exact h1
    rw [if_neg h1] at hab
    rw [if_neg h3, ← h2]
    exact hab
  · rw [if_neg h1] at hab
    rw [if_neg h2] at hbc
    have h3 : ¬ a.exit_date = c.exit_date := by
      intro he
      rw [he] at hab
      have hcc := optStrLT_trans _ _ _ hbc hab
      rw [optStrLT_irrefl] at hcc
      exact absurd hcc (by simp)
    rw [if_neg h3]
    exact optStrLT_trans _ _ _ hbc hab

/-- The ORDER BY exit_date DESC, entry_date DESC relation is total. -/
theorem tradeBefore_total (a b : Trade) :
    (tradeBefore a b || tradeBefore b a) = true := by
  unfold tradeBefore
  by_cases h : a.exit_date = b.exit_date
  · rw [if_pos h, if_pos h.symm]
    rcases le_total a.entry_date b.entry_date with hle | hle <;> simp [hle]
  · have h' : ¬ b.exit_date = a.exit_date := fun he => h he.symm
    rw [if_neg h, if_neg h']
    exact optStrLT_total_of_ne b.exit_date a.exit_date h'

/-- C8: findTradesBySubAccountId resolves the owning user of the sub-account
first and returns the empty list, not an error, when the sub-account is
absent; otherwise its result is the window at the given offset and limit,
taken after sorting, of exactly the trades whose sub_account_id is the
argument and whose user_id is the resolved owner, sorted by exit_date
descending then entry_date descending. -/
theorem findTradesBySubAccountId_spec (subAccountId limit offset : Nat)
    (db : JournalDB) :
    (db.subAccounts.find? (fun sa => decide (sa.id = subAccountId)) = none →
        findTradesBySubAccountId subAccountId limit offset db = [])
    ∧ (∀ sa, db.subAccounts.find? (fun sa => decide (sa.id = subAccountId))
          = some sa →
        sa ∈ db.subAccounts ∧ sa.id = subAccountId
        ∧ ∃ L : List Trade,
            L.Perm (db.trades.filter (fun t =>
              decide (t.sub_account_id = some subAccountId
                ∧ t.user_id = sa.user_id)))
            ∧ L.Pairwise (fun a b => tradeBefore a b = true)
            ∧ findTradesBySubAccountId subAccountId limit offset db
              = (L.drop offset).take limit) := by
  constructor
  · intro h
    simp [findTradesBySubAccountId, h]
  · intro sa h
    refine ⟨List.mem_of_find?_eq_some h, by simpa using List.find?_some h,
      (db.trades.filter (fun t =>
        decide (t.sub_account_id = some subAccountId
          ∧ t.user_id = sa.user_id))).mergeSort tradeBefore,
      List.mergeSort_perm _ _, ?_, ?_⟩
    · exact List.sorted_mergeSort
        (fun a b c => tradeBefore_trans a b c)
        (fun a b => tradeBefore_total a b) _
    · simp [findTradesBySubAccountId, h]

/-- Witness for C8 on the concrete journal: the present sub-account 3 and,
for the absent sub-account 99, the empty result. -/
theorem findTradesBySubAccountId_spec_witness :
    saSample ∈ journalSample.subAccounts ∧ saSample.id = 3
    ∧ ∃ L : List Trade,
        L.Perm (journalSample.trades.filter (fun t =>
          decide (t.sub_account_id = some 3 ∧ t.user_id = saSample.user_id)))
        ∧ L.Pairwise (fun a b => tradeBefore a b = true)
        ∧ findTradesBySubAccountId 3 50 0 journalSample
          = (L.drop 0).take 50 :=
  (findTradesBySubAccountId_spec 3 50 0 journalSample).2 saSample (by decide)

end TradeLab
